import Mathlib

/-!
# Verification of the wiredtiger-pr-bot webhook rules

A shallow embedding, in Lean 4, of the business logic of the
`wiredtiger-pr-bot` GitHub App: the Ticket-Title rule
(`src/prTitleValidation.ts`), the External-Contributor rule
(`src/externalContributorChecks.ts`), the Reviewer-Assignment rule
(`src/assignDevelopers.ts`), the Slack notifier (`src/notifySlack.ts`),
the shared helpers (`src/common.ts`, `src/webhookLogging.ts`) and the
event router contract.

Side effects (GitHub REST calls, Slack webhook posts, console logs,
file writes) are reified as an `Action` trace, `process.env` reads and
external HTTP reads are threaded through an `Env` record, and thrown
JavaScript exceptions are modelled with `Except`.
-/

namespace WtBot

/-! ## Generic string machinery

JavaScript strings are modelled as Lean `String`s; `charCodeAt` is the
code of the character (all strings involved are ASCII, where UTF-16
code units and code points coincide). -/

/-- `listStartsWith pat s` is true iff `pat` is a prefix of `s`. -/
def listStartsWith : List Char → List Char → Bool
  | [], _ => true
  | _ :: _, [] => false
  | p :: ps, c :: cs => p == c && listStartsWith ps cs

/-- `listContainsSub pat s`: `pat` occurs as a contiguous substring of `s`. -/
def listContainsSub (pat : List Char) : List Char → Bool
  | [] => listStartsWith pat []
  | c :: cs => listStartsWith pat (c :: cs) || listContainsSub pat cs

/-- `strContainsSub pat s`: substring occurrence lifted to `String`. -/
def strContainsSub (pat s : String) : Bool :=
  listContainsSub pat.data s.data

/-- `strStartsWith pat s`: models JavaScript `s.startsWith(pat)`. -/
def strStartsWith (pat s : String) : Bool :=
  listStartsWith pat.data s.data

/-- One character of an ASCII decimal digit, `[0-9]` in the regex. -/
def isDigitChar (c : Char) : Bool :=
  '0' ≤ c && c ≤ '9'

/-! ## The `WT-[0-9]+ .*` regex

`src/common.ts` defines
`prTitleRegex = /(?<wtTicket>WT-[0-9]+) .*/` and
`src/assignDevelopers.ts` repeats the same pattern locally.  The
pattern is NOT anchored, so `RegExp.test` / `RegExp.exec` search for a
match anywhere in the string.  A match exists at a position iff the
text there is `W`, `T`, `-`, then one or more digits followed by a
space (the trailing ` .*` consumes the space; `.*` always matches). -/

/-- After at least one digit has been consumed by `[0-9]+`, the regex
engine needs (possibly more digits and then) a space: succeeds iff the
first non-digit character of the remaining text is a space, with at
least that one digit before it. -/
def afterDigits : List Char → Bool
  | [] => false
  | c :: cs => c == ' ' || (isDigitChar c && afterDigits cs)

/-- `[0-9]+ ` starting exactly here: one digit, then `afterDigits`. -/
def digitsThenSpace : List Char → Bool
  | [] => false
  | c :: cs => isDigitChar c && afterDigits cs

/-- The pattern `WT-[0-9]+ .*` matches starting exactly at this position. -/
def wtMatchAt : List Char → Bool
  | 'W' :: 'T' :: '-' :: rest => digitsThenSpace rest
  | _ => false

/-- `prTitleRegex.test(s)` on the character list: a match at some position. -/
def regexTestAux : List Char → Bool
  | [] => false
  | c :: cs => wtMatchAt (c :: cs) || regexTestAux cs

/-- Models `prTitleRegex.test(prTitle)` from `src/common.ts` — the
unanchored search of `/(?<wtTicket>WT-[0-9]+) .*/`. -/
def prTitleRegexTest (s : String) : Bool :=
  regexTestAux s.data

/-- If the pattern matches at this position, the text captured by the
greedy `(?<wtTicket>WT-[0-9]+)` group: `WT-` plus the maximal digit
run. -/
def wtTicketHere : List Char → Option String
  | 'W' :: 'T' :: '-' :: rest =>
    if digitsThenSpace rest then
      some (String.mk ('W' :: 'T' :: '-' :: rest.takeWhile isDigitChar))
    else none
  | _ => none

/-- Leftmost-match extraction over all positions. -/
def extractWtTicketAux : List Char → Option String
  | [] => none
  | c :: cs =>
    match wtTicketHere (c :: cs) with
    | some t => some t
    | none => extractWtTicketAux cs

/-- Models `wtTicketRegex.exec(title)?.groups.wtTicket` from
`src/assignDevelopers.ts`: the leftmost match's `wtTicket` group, or
`none` when the regex does not match anywhere. -/
def extractWtTicket (title : String) : Option String :=
  extractWtTicketAux title.data

/-! ## `src/common.ts` and the payload snapshot -/

/-- The fields of the webhook payload the rules read. -/
structure PullRequestPart where
  title : String
  headSha : String
  baseLabel : String
  number : Nat
  userLogin : String
  url : String
deriving DecidableEq, Repr

/-- The slice of a `pull_request.*` webhook payload used by the bot.
`changesTitle` models the truthiness of `payload.changes.title` on
`edited` events; `orgLogin` models the optional
`payload.organization?.login`. -/
structure Payload where
  pullRequest : PullRequestPart
  defaultBranch : String
  repoOwner : String
  repoName : String
  orgLogin : Option String
  action : String
  changesTitle : Bool
deriving DecidableEq, Repr

/-- Splitting on a separator character, accumulating the current
segment in reverse. -/
def jsSplitAux (sep : Char) : List Char → List Char → List (List Char)
  | [], acc => [acc.reverse]
  | c :: cs, acc =>
    if c == sep then acc.reverse :: jsSplitAux sep cs []
    else jsSplitAux sep cs (c :: acc)

/-- Models JavaScript `s.split(sep)` for a one-character separator:
every segment between separators, empty segments included
(`"".split(':')` is `[""]`, `"a:b:c".split(':')` is `["a","b","c"]`). -/
def jsSplit (sep : Char) (s : String) : List String :=
  (jsSplitAux sep s.data []).map String.mk

/-- Models `verifyTargetIsDefaultBranch` from `src/common.ts` (the
copy in `src/assignDevelopers.ts` is identical up to the log text):
`payload.pull_request.base.label.split(':')[1]` compared against
`payload.repository.default_branch`; a missing index-1 entry is
JavaScript `undefined`, which never equals the default branch. -/
def verifyTargetIsDefaultBranch (p : Payload) : Bool :=
  (jsSplit ':' p.pullRequest.baseLabel).get? 1 == some p.defaultBranch

/-- Models `isAscii` from `src/prTitleValidation.ts`: every character
code is between 0 and 127. -/
def isAscii (s : String) : Bool :=
  s.data.all fun c => c.toNat ≤ 127

/-! ## Reified side effects and the environment -/

/-- The check conclusions the bot publishes. -/
inductive Conclusion where
  | success
  | failure
  | neutral
deriving DecidableEq, Repr

/-- The string GitHub receives for a conclusion. -/
def conclusionStr : Conclusion → String
  | .success => "success"
  | .failure => "failure"
  | .neutral => "neutral"

/-- The two Slack webhooks of `src/notifySlack.ts`. -/
inductive SlackChannel where
  | notify
  | debug
deriving DecidableEq, Repr

/-- One observable effect of a handler run.  `log` is a console line;
`createCheck`, `createComment`, `addAssignees` are the GitHub REST
mutations; `slackPost` is a Slack webhook POST with its JSON body;
`queryMembership` is the (read-only) membership GET;
`writeFile` is `writeFileSync` of an overlong stack trace. -/
inductive Action where
  | log (line : String)
  | createCheck (owner repo name summary headSha : String) (conclusion : Conclusion)
  | createComment (owner repo : String) (issueNumber : Nat) (body : String)
  | addAssignees (owner repo : String) (issueNumber : Nat) (assignees : List String)
  | slackPost (channel : SlackChannel) (body : String)
  | queryMembership (org user : String)
  | writeFile (name contents : String)
deriving DecidableEq, Repr

/-- The outbound mutating calls: check creation, comment creation,
assignee addition, Slack webhook post.  Console logs, the read-only
membership query and the local trace-file write are not outbound
mutations. -/
def Action.isOutboundMutation : Action → Bool
  | .createCheck _ _ _ _ _ _ => true
  | .createComment _ _ _ _ => true
  | .addAssignees _ _ _ _ => true
  | .slackPost _ _ => true
  | _ => false

/-- Ambient state read by the handlers: the `DRY_RUN` environment
variable, the HTTP status returned by
`octokit.rest.orgs.checkMembershipForUser` (rejections are folded to a
status by the `.catch` in `userIsOrgMember`), the Jira components GET
(`none` models a response without a `fields` member), the existence
and parsed content of the `SME_GROUPS_FILE`, and the stack-trace log
file name that `getLogFileName()` would produce. -/
structure Env where
  dryRun : Bool
  membershipStatus : String → String → Nat
  jiraComponents : String → Option (List String)
  smeFileExists : Bool
  smeGroupsJson : String → Option (List String)
  traceFileName : String

/-! ## `src/notifySlack.ts` -/

/-- Models the string escaping `JSON.stringify` applies to the
characters that occur in the bot's messages. -/
def jsonEscapeChar (c : Char) : String :=
  if c = '"' then "\\\""
  else if c = '\\' then "\\\\"
  else if c = '\n' then "\\n"
  else if c = '\t' then "\\t"
  else if c = '\r' then "\\r"
  else String.mk [c]

/-- `JSON.stringify` escaping over a whole string. -/
def jsonEscape (s : String) : String :=
  String.join (s.data.map jsonEscapeChar)

/-- `JSON.stringify` of one `SlackBlock` (its `type` fields are always
the literals `section` and `mrkdwn`, so a block is just its text). -/
def stringifySlackBlock (text : String) : String :=
  "\x7b\"type\":\"section\",\"text\":\x7b\"type\":\"mrkdwn\",\"text\":\"" ++
    jsonEscape text ++ "\"\x7d\x7d"

/-- `JSON.stringify(wrapMessageInBlock(message, color, stack_trace))`
from `src/notifySlack.ts`: the message block, followed by the
triple-backquoted stack-trace block when a stack trace is present. -/
def wrapMessageInBlock (message color : String) (stackTrace : Option String) : String :=
  let blocks :=
    match stackTrace with
    | some t => [message, "```" ++ t ++ "```"]
    | none => [message]
  "\x7b\"attachments\":[\x7b\"color\":\"" ++ color ++ "\",\"blocks\":[" ++
    String.intercalate "," (blocks.map stringifySlackBlock) ++ "]\x7d]\x7d"

/-- Models `sendSlackMessage` from `src/notifySlack.ts`.  A stack
trace over 2950 characters is first saved with `writeFileSync` (to the
name `getLogFileName()` computes from the clock, threaded in as
`env.traceFileName`) and replaced by a truncation note; the wrapped
JSON body is then either logged (dry run) or POSTed to the channel's
webhook. -/
def sendSlackMessage (env : Env) (message color : String) (channel : SlackChannel)
    (stackTrace : Option String) : List Action :=
  let fileActs : List Action :=
    match stackTrace with
    | some t => if 2950 < t.length then [Action.writeFile env.traceFileName t] else []
    | none => []
  let stackTrace2 : Option String :=
    match stackTrace with
    | some t =>
      if 2950 < t.length then
        some ("Message exceeds 3000 characters. Truncating and saving full trace to " ++
          env.traceFileName ++ "\n\n" ++ t.take 2800)
      else some t
    | none => none
  let body := wrapMessageInBlock message color stackTrace2
  fileActs ++
    (if env.dryRun then [Action.log ("Dry run: Sending slack message:\n" ++ body ++ "\n")]
     else [Action.slackPost channel body])

/-- `slackMessageNotification`: blue, NOTIFY webhook, no stack trace. -/
def slackMessageNotification (env : Env) (message : String) : List Action :=
  sendSlackMessage env message "#2589CF" SlackChannel.notify none

/-- `slackMessageError`: red, DEBUG webhook. -/
def slackMessageError (env : Env) (message : String) (stackTrace : Option String) : List Action :=
  sendSlackMessage env message "#9A2925" SlackChannel.debug stackTrace

/-- `slackMessageWarning`: yellow, DEBUG webhook. -/
def slackMessageWarning (env : Env) (message : String) (stackTrace : Option String) : List Action :=
  sendSlackMessage env message "#DEB109" SlackChannel.debug stackTrace

/-! ## `src/webhookLogging.ts` -/

/-- A thrown JavaScript `Error`, as far as `reportWebhookError` reads
it: its JSON rendering and its `stack` property. -/
structure JsError where
  json : String
  stack : String
deriving DecidableEq, Repr

/-- Models `JSON.stringify(payload, null, 2)`: an abstract but
injective-enough rendering of the payload snapshot.  Only its
occurrence inside reports matters to the theorems, never its exact
shape. -/
def jsonStringifyPayload (p : Payload) : String :=
  "\x7b \"action\": \"" ++ jsonEscape p.action ++ "\", \"number\": " ++
    toString p.pullRequest.number ++ ", \"title\": \"" ++
    jsonEscape p.pullRequest.title ++ "\" \x7d"

/-- The `errContext` block `reportWebhookError` assembles: the stack
trace, the error's JSON and the payload's JSON. -/
def webhookErrContext (error : JsError) (p : Payload) : String :=
  "Stack trace: \n=================\n" ++ error.stack ++
    "\n\nError:   \n=================\n" ++ error.json ++
    "\n\nPayload: \n=================\n" ++ jsonStringifyPayload p

/-- Models `reportWebhookError` from `src/webhookLogging.ts`: an error
caught at a handler boundary is sent to the Slack DEBUG webhook with
the stack trace, the JSON of the error and the JSON of the payload. -/
def reportWebhookError (env : Env) (error : JsError) (p : Payload) (webhook : String) :
    List Action :=
  slackMessageError env
    ("Unexpected error when handling `" ++ webhook ++ "` event!")
    (some (webhookErrContext error p))

/-! ## `src/prTitleValidation.ts` -/

/-- The check name, with `prTitleRegexString` interpolated. -/
def prTitleCheckName : String :=
  "PR title is an ASCII string. Non-revert PRs begin with a WT ticket: \x27WT-[0-9]+ .*\x27"

/-- The check summary template literal (backslash line continuations
join the lines, keeping the following line's indentation). -/
def prTitleCheckSummary : String :=
  "WiredTiger automation tools use PR titles and commit messages of the " ++
  "                resulting merge commit (which is derived from the PR title) to update Jira tickets.\n" ++
  "                For this to work the commit and PR title must begin with the wiredtiger ticket number " ++
  "                followed by a space, and must use only ASCII characters. " ++
  "\t\t\t\tAn exception to this rule is revert tickets which only need to meet the ASCII requirement."

/-- The conclusion computed by `runPrTitleCheck`: the unanchored regex
test, overridden to valid for titles starting with `Revert`, and the
unconditional ASCII requirement. -/
def runPrTitleCheckConclusion (prTitle : String) : Conclusion :=
  let validRegex := prTitleRegexTest prTitle || strStartsWith "Revert" prTitle
  if validRegex && isAscii prTitle then Conclusion.success else Conclusion.failure

/-- Models `runPrTitleCheck`: computes the conclusion, then either
logs it (dry run) or creates the completed check on the head commit. -/
def runPrTitleCheck (env : Env) (p : Payload) (headSha : String) : List Action :=
  let conclusion := runPrTitleCheckConclusion p.pullRequest.title
  if env.dryRun then
    [Action.log ("Dry run: Reporting pr_title check result: " ++ conclusionStr conclusion)]
  else
    [Action.createCheck p.repoOwner p.repoName prTitleCheckName prTitleCheckSummary
      headSha conclusion]

/-- The `pull_request.opened` hook of `registerPrTitleCheckHooks`:
skip (diagnostic log elided) unless the PR targets the default branch,
else run the title check on the head commit. -/
def prTitleOpenedHandler (env : Env) (p : Payload) : List Action :=
  if verifyTargetIsDefaultBranch p then runPrTitleCheck env p p.pullRequest.headSha else []

/-- The `pull_request.edited` hook: additionally skips when the title
field did not change. -/
def prTitleEditedHandler (env : Env) (p : Payload) : List Action :=
  if verifyTargetIsDefaultBranch p then
    if p.changesTitle then runPrTitleCheck env p p.pullRequest.headSha else []
  else []

/-- The `pull_request.synchronize` hook: reruns the check for the
latest commit, with no default-branch guard. -/
def prTitleSyncHandler (env : Env) (p : Payload) : List Action :=
  runPrTitleCheck env p p.pullRequest.headSha

/-! ## `src/externalContributorChecks.ts` -/

def externalContributorCheckName : String :=
  "External user. Please check contributors agreement"

def contributorsListUrl : String :=
  "https://contributors.corp.mongodb.com/"

/-- The warning text of `userIsOrgMember` for an unexpected
membership status. -/
def membershipWarningText (inWtOrgStatus : Nat) (user org : String) : String :=
  "Unexpected return status \x27" ++ toString inWtOrgStatus ++
    "\x27 from checkMembershipForUser()!\n" ++
    "Value should be 204 or 404. user = \x27" ++ user ++ "\x27, org = \x27" ++
    org ++ "\x27"

/-- Models `userIsOrgMember`: the membership GET's HTTP status (thrown
responses are folded to their status by the `.catch`), member iff 204,
and a DEBUG-channel warning for any status other than 204 and 404.
Returns the decision together with the trace of the query and the
possible warning. -/
def userIsOrgMember (env : Env) (user org : String) : Bool × List Action :=
  let inWtOrgStatus := env.membershipStatus org user
  let inWtOrg := inWtOrgStatus == 204
  let warnActs :=
    if inWtOrgStatus != 204 && inWtOrgStatus != 404 then
      slackMessageWarning env (membershipWarningText inWtOrgStatus user org) none
    else []
  (inWtOrg, Action.queryMembership org user :: warnActs)

/-- The welcome comment body (template literal with prSubmitter
interpolated; backslash continuations join lines keeping the next
line's 8-space indentation). -/
def externalContributorWelcomeBody (prSubmitter : String) : String :=
  "Hi @" ++ prSubmitter ++ ", thank you for your submission!\n" ++
  "        Please make sure to sign our [Contributor Agreement](https://www.mongodb.com/legal/contributor-agreement) " ++
  "        and provide us with editor permissions on your branch. \n" ++
  "        Instructions on how do that can be found [here](https://docs.github.com/en/free-pro-team@latest/github/" ++
  "        collaborating-with-issues-and-pull-requests/allowing-changes-to-a-pull-request-branch-created-from-a-fork)."

/-- Models `externalContributorWelcomeMessage`: post (or, in dry run,
log) the welcome comment on the PR. -/
def externalContributorWelcomeMessage (env : Env) (p : Payload) (prSubmitter : String) :
    List Action :=
  let body := externalContributorWelcomeBody prSubmitter
  if env.dryRun then [Action.log ("Dry run: posting comment\n" ++ body)]
  else [Action.createComment p.repoOwner p.repoName p.pullRequest.number body]

/-- The contributors-agreement check summary. -/
def contributorsAgreementSummary : String :=
  "Make sure that an external contributor has signed the contributors agreement.\n" ++
  "                This check only appears for external constributors.\n" ++
  "                The contributors list can be [found here](" ++ contributorsListUrl ++ ")"

/-- Models `createContributorsAgreementReminder`: always logs, then
either logs the dry-run line or creates the neutral check on the head
commit. -/
def createContributorsAgreementReminder (env : Env) (p : Payload) : List Action :=
  Action.log "Creating new contributors agreement check" ::
    (if env.dryRun then
      [Action.log "Dry run: Adding \x27please check contributors agreement\x27 reminder"]
    else
      [Action.createCheck p.repoOwner p.repoName externalContributorCheckName
        contributorsAgreementSummary p.pullRequest.headSha Conclusion.neutral])

/-- Models `notifySlackOfNewPr`: one NOTIFY-channel message with
author, link, title and number. -/
def notifySlackOfNewPr (env : Env) (p : Payload) (prSubmitter : String) : List Action :=
  slackMessageNotification env
    ("External PR opened by `" ++ prSubmitter ++ "`!\n" ++
      "<" ++ p.pullRequest.url ++ "|*#" ++ toString p.pullRequest.number ++ " " ++
      p.pullRequest.title ++ "*>\n" ++
      "Please assign a reviewer or triage for a future sprint.\n" ++
      "If the PR will be reviewed at a later date please inform the submitter of this decision.")

/-- The `pull_request.opened` hook of
`registerExternalContributorCheckHooks`: warn and abort when the
organization is missing; otherwise, for a non-member, welcome comment
then reminder check then team notification. -/
def extContribOpenedHandler (env : Env) (p : Payload) : List Action :=
  let prSubmitter := p.pullRequest.userLogin
  match p.orgLogin with
  | none =>
    slackMessageWarning env "Warning! Couldn\x27t extract organization from payload"
      (some (jsonStringifyPayload p))
  | some org =>
    let result := userIsOrgMember env prSubmitter org
    result.2 ++
      (if result.1 then []
       else
        externalContributorWelcomeMessage env p prSubmitter ++
        createContributorsAgreementReminder env p ++
        notifySlackOfNewPr env p prSubmitter)

/-- The `pull_request.synchronize` hook: the missing-organization case
falls back to the literal string `Can't find org!` and proceeds; for a
non-member only the reminder check is refreshed. -/
def extContribSyncHandler (env : Env) (p : Payload) : List Action :=
  let prSubmitter := p.pullRequest.userLogin
  let org := p.orgLogin.getD "Can\x27t find org!"
  let result := userIsOrgMember env prSubmitter org
  result.2 ++ (if result.1 then [] else createContributorsAgreementReminder env p)

/-! ## `src/assignDevelopers.ts` -/

/-- One entry of the mapping built by `getAssignedSmeGroups`:
`{component, members: smeGroupsJson[component]}`. `members` is `none`
when the component is absent from the configuration file (JavaScript
`undefined`). -/
structure SmeGroup where
  component : String
  members : Option (List String)
deriving DecidableEq, Repr

/-- Models `getComponentList`: the Jira GET either yields the ticket's
component names, or (no `fields` member in the response) a DEBUG
warning naming the ticket and the failed URL, with an empty component
list. -/
def getComponentList (env : Env) (wtTicket : String) : List Action × List String :=
  match env.jiraComponents wtTicket with
  | none =>
    (slackMessageWarning env
      ("Couldn\x27t find component list for ticket " ++ wtTicket)
      (some ("Failed GET request: https://jira.mongodb.org/rest/api/2/issue/" ++
        wtTicket ++ "?fields=components")), [])
  | some comps => ([], comps)

/-- Models `getAssignedSmeGroups`: when the `SME_GROUPS_FILE` exists,
each ticket component paired with its (possibly absent) member list;
when the file does not exist, `undefined`. -/
def getAssignedSmeGroups (env : Env) (ticketComponents : List String) :
    Option (List SmeGroup) :=
  if env.smeFileExists then
    some (ticketComponents.map fun c => { component := c, members := env.smeGroupsJson c })
  else none

/-- First-occurrence deduplication with an accumulator of already-seen
entries; models `[...new Set(list)]`, whose iteration order is
insertion order. -/
def dedupFirstAux : List String → List String → List String
  | [], _ => []
  | x :: xs, seen =>
    if seen.contains x then dedupFirstAux xs seen else x :: dedupFirstAux xs (x :: seen)

/-- `[...new Set(l)]`. -/
def dedupFirst (l : List String) : List String :=
  dedupFirstAux l []

/-- Models `buildAssigneeList`: concatenate every group's member list
(`smeGroup?.members ?? []` turns an absent list into `[]`), then
deduplicate keeping first occurrences. -/
def buildAssigneeList (assignedSmeGroups : List SmeGroup) : List String :=
  dedupFirst ((assignedSmeGroups.map fun g => g.members.getD []).flatten)

/-- `JSON.stringify` of a `TypeError` is `{}` (`Error` properties are
not enumerable); thrown when `buildAssigneeList` iterates the
`undefined` returned by `getAssignedSmeGroups` for a missing file. -/
def smeGroupsUndefinedError : JsError :=
  { json := "\x7b\x7d", stack := "TypeError: assignedSmeGroups is not iterable" }

/-- Thrown by `buildAssigneeMessage` when `smeGroup.members.join` is
evaluated on an `undefined` member list. -/
def membersUndefinedError : JsError :=
  { json := "\x7b\x7d",
    stack := "TypeError: Cannot read properties of undefined (reading \x27join\x27)" }

/-- The per-component lines of the assignee comment.  Unlike
`buildAssigneeList`, the source reads `smeGroup.members` without a
`?? []` guard here, so an absent member list throws. -/
def buildAssigneeMessageLines : List SmeGroup → Except JsError String
  | [] => Except.ok ""
  | g :: gs =>
    match g.members with
    | none => Except.error membersUndefinedError
    | some ms =>
      match buildAssigneeMessageLines gs with
      | Except.error e => Except.error e
      | Except.ok rest =>
        Except.ok ("- `" ++ g.component ++ "`: " ++ String.intercalate ", " ms ++ "\n" ++ rest)

/-- Models `buildAssigneeMessage`: the header, one line per SME group,
and the truncation notice when more than 10 assignees were computed. -/
def buildAssigneeMessage (smeGroups : List SmeGroup) (assigneeList : List String) :
    Except JsError String :=
  match buildAssigneeMessageLines smeGroups with
  | Except.error e => Except.error e
  | Except.ok lines =>
    Except.ok ("Assigning the following users based on Jira ticket components:\n" ++ lines ++
      (if 10 < assigneeList.length then
        "<sub>Github limits PRs to at most 10. Assignee list has been truncated</sub>"
      else ""))

/-- Models `buildAssigneeListAndMessage`: regex-extract the ticket
(log and yield `none` when the unanchored regex finds no match), fetch
components, map them through the SME file (the `!` assertion plus the
later iteration turn a missing file into a thrown `TypeError`), build
list and message, and skip with a log when no developers were found.
Returns the actions performed together with the outcome. -/
def buildAssigneeListAndMessage (env : Env) (p : Payload) :
    List Action × Except JsError (Option (List String × String)) :=
  match extractWtTicket p.pullRequest.title with
  | none =>
    ([Action.log "No WT ticket in title! skipping auto-assignment"], Except.ok none)
  | some wtTicket =>
    let compResult := getComponentList env wtTicket
    match getAssignedSmeGroups env compResult.2 with
    | none => (compResult.1, Except.error smeGroupsUndefinedError)
    | some assignedSmeGroups =>
      let assigneeList := buildAssigneeList assignedSmeGroups
      match buildAssigneeMessage assignedSmeGroups assigneeList with
      | Except.error e => (compResult.1, Except.error e)
      | Except.ok assigneeMessage =>
        if assigneeList.length == 0 then
          (compResult.1 ++ [Action.log "No developers found to assign"], Except.ok none)
        else
          (compResult.1, Except.ok (some (assigneeList, assigneeMessage)))

/-- Models `assignDevelopers`: log, then either the two dry-run log
lines or the `addAssignees` call followed by the explanatory comment. -/
def assignDevelopers (env : Env) (p : Payload) (assigneeList : List String)
    (assigneeMessage : String) : List Action :=
  Action.log "Assigning members to PR" ::
    (if env.dryRun then
      [Action.log ("Dry run: assignee list: [" ++ String.intercalate ", " assigneeList ++ "]"),
       Action.log ("Dry run: PR message: \n\"\"\"\n" ++ assigneeMessage ++ "\n\"\"\"")]
    else
      [Action.addAssignees p.repoOwner p.repoName p.pullRequest.number assigneeList,
       Action.createComment p.repoOwner p.repoName p.pullRequest.number assigneeMessage])

/-- The try-block of the `pull_request.opened` hook of
`registerAssignDevelopersHooks`: default-branch guard, then build list
and message, then mutate.  The second component is the error escaping
the try-block, if any. -/
def assignDevelopersBody (env : Env) (p : Payload) : List Action × Option JsError :=
  if verifyTargetIsDefaultBranch p then
    let r := buildAssigneeListAndMessage env p
    match r.2 with
    | Except.error e => (r.1, some e)
    | Except.ok none => (r.1, none)
    | Except.ok (some lm) => (r.1 ++ assignDevelopers env p lm.1 lm.2, none)
  else ([], none)

/-! ## Handler boundaries and the event router

The `try { ... } catch (error) { reportWebhookError(...) }` pattern
shared by every registered hook, and the dispatch contract of the
webhook library (spec §4.1). -/

/-- The catch-all boundary each hook wraps its body in: actions
performed before a throw are kept, the error is reported via
`reportWebhookError`, and nothing escapes. -/
def handlerBoundary (body : Env → Payload → List Action × Option JsError)
    (hookName : String) (env : Env) (p : Payload) : List Action × Option JsError :=
  let r := body env p
  match r.2 with
  | none => (r.1, none)
  | some e => (r.1 ++ reportWebhookError env e p hookName, none)

/-- The registered `pull_request.opened` hook of
`registerAssignDevelopersHooks`: the body inside its boundary. -/
def assignDevelopersOpenedHandler (env : Env) (p : Payload) : List Action :=
  (handlerBoundary assignDevelopersBody "assignDevelopers pull_request.opened" env p).1

/-- Modelled from the spec: the webhook library's dispatch (spec §4.1)
is not part of `src/`.  It invokes the handlers registered for the
event's type in order; an error a handler lets escape is (worst case
for the claim) taken to abort dispatch of the remaining handlers and
to surface at the router. -/
def dispatch : List (Env → Payload → List Action × Option JsError) → Env → Payload →
    List Action × Option JsError
  | [], _, _ => ([], none)
  | h :: hs, env, p =>
    let r := h env p
    match r.2 with
    | some e => (r.1, some e)
    | none =>
      let rest := dispatch hs env p
      (r.1 ++ rest.1, rest.2)

/-- A webhook delivery: one of the three event types, with its
payload. -/
inductive Event where
  | opened (p : Payload)
  | edited (p : Payload)
  | synchronize (p : Payload)
deriving DecidableEq, Repr

/-- The External-Contributor rule seen at the event level: its two
registered hooks, and no hook for `edited`. -/
def extContribHandle (env : Env) : Event → List Action
  | Event.opened p => extContribOpenedHandler env p
  | Event.synchronize p => extContribSyncHandler env p
  | Event.edited _ => []

/-- The External-Contributor rule over a whole delivery trace. -/
def extContribTrace (env : Env) (events : List Event) : List Action :=
  (events.map (extContribHandle env)).flatten

/-! ## Spec-side definitions

Definitions following the specification's words, clearly separated
from the source embedding above, for the refinement comparisons. -/

/-- Modelled from the spec's words (§4.2 steps 2–3, §8): a title is
valid iff it starts with the literal token `Revert` OR matches
`WT-<digits><space><anything>` ANCHORED at the start, and every
character is ASCII. -/
def specTitleValid (title : String) : Bool :=
  (strStartsWith "Revert" title || wtMatchAt title.data) && isAscii title

/-- Modelled from the spec's words (§4.4 step 5): fold over the
concatenated members, appending each one not yet seen — duplicates
removed, first-seen order. -/
def specDedupFirstSeen (l : List String) : List String :=
  l.foldl (fun acc x => if acc.contains x then acc else acc ++ [x]) []

/-! ## Classifying helper predicates -/

/-- The Reviewer-Assignment rule's two mutations: the assignment call
and the explanatory comment. -/
def isAssignmentMutation : Action → Bool
  | Action.addAssignees _ _ _ _ => true
  | Action.createComment _ _ _ _ => true
  | _ => false

/-- An issue-comment creation. -/
def isCreateComment : Action → Bool
  | Action.createComment _ _ _ _ => true
  | _ => false

/-- A post to the team-visible NOTIFY webhook. -/
def isNotifyPost : Action → Bool
  | Action.slackPost SlackChannel.notify _ => true
  | _ => false

/-! ## Fixtures used by witnesses and counterexamples -/

/-- A PR snapshot: valid title, default-branch target. -/
def basePr : PullRequestPart :=
  { title := "WT-4821 Fix perf regression"
    headSha := "abc123"
    baseLabel := "wiredtiger:develop"
    number := 42
    userLogin := "extdev"
    url := "https://api.github.com/repos/mongodb/wiredtiger/pulls/42" }

/-- A payload for `basePr` with the organization present. -/
def basePayload : Payload :=
  { pullRequest := basePr
    defaultBranch := "develop"
    repoOwner := "mongodb"
    repoName := "wiredtiger"
    orgLogin := some "wiredtiger"
    action := "opened"
    changesTitle := true }

/-- An environment: live mode, author not an org member (404), the
spec §8 component fixture in Jira and in the SME file. -/
def baseEnv : Env :=
  { dryRun := false
    membershipStatus := fun _ _ => 404
    jiraComponents := fun _ => some ["Cache and eviction", "Logging"]
    smeFileExists := true
    smeGroupsJson := fun c =>
      if c == "Cache and eviction" then some ["alice", "bob"]
      else if c == "Logging" then some ["bob", "carol"]
      else none
    traceFileName := "./traces/2026-9-11_12-0-0.txt" }

/-! ## Helper lemmas -/

theorem listStartsWith_self_append (pat r : List Char) :
    listStartsWith pat (pat ++ r) = true := by
  induction pat with
  | nil => rfl
  | cons c cs ih => simp [listStartsWith, ih]

theorem listContainsSub_middle (pat l r : List Char) :
    listContainsSub pat (l ++ (pat ++ r)) = true := by
  induction l with
  | nil =>
    cases h : pat ++ r with
    | nil => simp_all [listContainsSub, listStartsWith]
    | cons c cs => simp [listContainsSub, ← h, listStartsWith_self_append]
  | cons c cs ih => simp [listContainsSub, ih]

/-- A pattern occurs in any string of which it is an infix. -/
theorem strContainsSub_middle (pat a b : String) :
    strContainsSub pat (a ++ (pat ++ b)) = true := by
  simp [strContainsSub, String.data_append, listContainsSub_middle]

/-- Every action `sendSlackMessage` can emit is a console log, a post
to its own channel, or the trace-file write. -/
theorem sendSlackMessage_shape (env : Env) (m c : String) (ch : SlackChannel)
    (st : Option String) :
    ∀ a ∈ sendSlackMessage env m c ch st,
      (∃ s, a = Action.log s) ∨ (∃ b, a = Action.slackPost ch b) ∨
      (∃ n t, a = Action.writeFile n t) := by
  intro a ha
  unfold sendSlackMessage at ha
  simp only [List.mem_append] at ha
  rcases ha with ha | ha
  · rcases st with _ | t
    · simp at ha
    · by_cases hlen : 2950 < t.length
      · simp only [hlen, if_true, List.mem_singleton] at ha
        exact Or.inr (Or.inr ⟨_, _, ha⟩)
      · simp [hlen] at ha
  · by_cases hdry : env.dryRun = true
    · simp only [hdry, if_true, List.mem_singleton] at ha
      exact Or.inl ⟨_, ha⟩
    · simp only [Bool.not_eq_true] at hdry
      simp only [hdry, Bool.false_eq_true, if_false, List.mem_singleton] at ha
      exact Or.inr (Or.inl ⟨_, ha⟩)

theorem mem_dedupFirstAux (x : String) (l : List String) :
    ∀ seen, x ∈ dedupFirstAux l seen → x ∈ l := by
  induction l with
  | nil => intro seen h; simp [dedupFirstAux] at h
  | cons y ys ih =>
    intro seen h
    unfold dedupFirstAux at h
    split at h
    · exact List.mem_cons_of_mem _ (ih _ h)
    · rcases List.mem_cons.mp h with h | h
      · exact h ▸ List.mem_cons_self _ _
      · exact List.mem_cons_of_mem _ (ih _ h)

/-- The fold the spec describes equals the accumulator-style
deduplication of the embedding, for accumulators with the same
membership. -/
theorem foldl_dedup_eq_aux (l : List String) :
    ∀ acc seen, (∀ y, acc.contains y = seen.contains y) →
      l.foldl (fun a x => if a.contains x then a else a ++ [x]) acc =
        acc ++ dedupFirstAux l seen := by
  induction l with
  | nil => intro acc seen _; simp [dedupFirstAux]
  | cons x xs ih =>
    intro acc seen hsame
    simp only [List.foldl_cons]
    unfold dedupFirstAux
    rw [hsame x]
    by_cases hx : seen.contains x = true
    · simp only [hx, if_true]
      exact ih acc seen hsame
    · simp only [hx, if_false, Bool.false_eq_true]
      rw [ih (acc ++ [x]) (x :: seen) ?_, List.append_assoc]
      · simp
      · intro y
        have h2 := hsame y
        simp only [List.contains, List.elem_eq_mem] at h2 ⊢
        simp only [decide_eq_decide] at h2 ⊢
        simp [List.mem_append, List.mem_cons, h2, Or.comm]

/-- `[...new Set(l)]` is the spec's first-seen fold. -/
theorem dedupFirst_eq_spec (l : List String) :
    dedupFirst l = specDedupFirstSeen l := by
  simpa [specDedupFirstSeen, dedupFirst] using (foldl_dedup_eq_aux l [] [] fun _ => rfl).symm

/-- `basePayload` with another PR title. -/
def payloadWithTitle (t : String) : Payload :=
  { basePayload with pullRequest := { basePr with title := t } }

/-- `basePayload` retargeted at a non-default (backport) branch. -/
def backportPayload : Payload :=
  { basePayload with pullRequest := { basePr with baseLabel := "wiredtiger:mongodb-8.0" } }

/-- `basePayload` with the organization absent, on a synchronize
delivery. -/
def noOrgSyncPayload : Payload :=
  { basePayload with orgLogin := none, action := "synchronize" }

/-! ## C1 -/

/-- C1: the claim — conclusion is success iff the title starts with
`Revert` or matches `WT-<digits><space><anything>` anchored at the
start, and is ASCII — does not hold on the code, and the source
contradicts its own comments and its published check name, which both
say titles must BEGIN with a WT ticket.  `prTitleRegex` is unanchored,
so for the ASCII title `"Fix WT-1 typo"`, which neither starts with
`Revert` nor matches the pattern at the start, the handler still
publishes a check with conclusion success, while the spec's reading
(`specTitleValid`) demands failure. -/
theorem c1_title_check_unanchored_bug :
    prTitleOpenedHandler baseEnv (payloadWithTitle "Fix WT-1 typo") =
      [Action.createCheck "mongodb" "wiredtiger" prTitleCheckName prTitleCheckSummary
        "abc123" Conclusion.success] ∧
    specTitleValid "Fix WT-1 typo" = false ∧
    strStartsWith "Revert" "Fix WT-1 typo" = false ∧
    wtMatchAt ("Fix WT-1 typo").data = false ∧
    isAscii "Fix WT-1 typo" = true :=
  ⟨rfl, rfl, rfl, rfl, rfl⟩

/-! ## C2 -/

/-- C2 counterexample: a `pull_request.synchronize` delivery targeting
the backport branch `mongodb-8.0` (not the default branch `develop`)
does NOT skip — the handler still publishes the title check. -/
theorem c2_sync_ignores_target_branch :
    verifyTargetIsDefaultBranch backportPayload = false ∧
    prTitleSyncHandler baseEnv backportPayload =
      [Action.createCheck "mongodb" "wiredtiger" prTitleCheckName prTitleCheckSummary
        "abc123" Conclusion.success] :=
  ⟨rfl, rfl⟩

/-- C2 amended: only the `opened` and `edited` hooks of the
Ticket-Title rule skip when the PR's target branch is not the default
branch; the `synchronize` hook has no default-branch guard and always
runs the title check on the head commit. -/
theorem c2_branch_guard_amended (env : Env) (p : Payload)
    (h : verifyTargetIsDefaultBranch p = false) :
    prTitleOpenedHandler env p = [] ∧
    prTitleEditedHandler env p = [] ∧
    prTitleSyncHandler env p = runPrTitleCheck env p p.pullRequest.headSha := by
  unfold prTitleOpenedHandler prTitleEditedHandler prTitleSyncHandler
  simp [h]

/-- C2 amended, witnessed at the backport payload. -/
theorem c2_branch_guard_amended_witness :
    verifyTargetIsDefaultBranch backportPayload = false ∧
    (prTitleOpenedHandler baseEnv backportPayload = [] ∧
     prTitleEditedHandler baseEnv backportPayload = [] ∧
     prTitleSyncHandler baseEnv backportPayload =
       runPrTitleCheck baseEnv backportPayload backportPayload.pullRequest.headSha) :=
  ⟨rfl, c2_branch_guard_amended baseEnv backportPayload rfl⟩

/-! ## C3 -/

/-- C3 counterexample: on a `pull_request.synchronize` delivery with
the organization absent from the payload, the External-Contributor
rule does NOT warn-and-abort: it queries membership with the literal
placeholder `Can't find org!` and (the query reporting non-member)
mutates by creating the advisory check. -/
theorem c3_sync_missing_org_proceeds :
    noOrgSyncPayload.orgLogin = none ∧
    extContribSyncHandler baseEnv noOrgSyncPayload =
      [Action.queryMembership "Can\x27t find org!" "extdev",
       Action.log "Creating new contributors agreement check",
       Action.createCheck "mongodb" "wiredtiger" externalContributorCheckName
         contributorsAgreementSummary "abc123" Conclusion.neutral] :=
  ⟨rfl, rfl⟩

/-- C3 amended: only the `opened` handler treats an absent
organization as warn-and-abort — it emits the warning and performs no
membership query, no comment, no check and no team notification; the
`synchronize` handler instead substitutes the literal string
`Can't find org!` as the organization and proceeds with the membership
query and, on non-member, the advisory-check refresh. -/
theorem c3_missing_org_amended (env : Env) (p : Payload) (h : p.orgLogin = none) :
    extContribOpenedHandler env p =
      slackMessageWarning env "Warning! Couldn\x27t extract organization from payload"
        (some (jsonStringifyPayload p)) ∧
    (∀ a ∈ extContribOpenedHandler env p,
      isCreateComment a = false ∧ isNotifyPost a = false ∧
      (∀ o u, a ≠ Action.queryMembership o u) ∧
      (∀ ow r n s sha cc, a ≠ Action.createCheck ow r n s sha cc)) ∧
    extContribSyncHandler env p =
      (userIsOrgMember env p.pullRequest.userLogin "Can\x27t find org!").2 ++
        (if (userIsOrgMember env p.pullRequest.userLogin "Can\x27t find org!").1 then []
         else createContributorsAgreementReminder env p) := by
  have hopened : extContribOpenedHandler env p =
      slackMessageWarning env "Warning! Couldn\x27t extract organization from payload"
        (some (jsonStringifyPayload p)) := by
    unfold extContribOpenedHandler
    rw [h]
  refine ⟨hopened, ?_, ?_⟩
  · intro a ha
    rw [hopened] at ha
    rcases sendSlackMessage_shape env _ _ _ _ a ha with ⟨s, rfl⟩ | ⟨b, rfl⟩ | ⟨n, t, rfl⟩ <;>
      simp [isCreateComment, isNotifyPost]
  · unfold extContribSyncHandler
    rw [h]
    rfl

/-- C3 amended, witnessed at a payload with no organization. -/
theorem c3_missing_org_amended_witness :
    ({ basePayload with orgLogin := none } : Payload).orgLogin = none ∧
    (extContribOpenedHandler baseEnv { basePayload with orgLogin := none } =
      slackMessageWarning baseEnv "Warning! Couldn\x27t extract organization from payload"
        (some (jsonStringifyPayload { basePayload with orgLogin := none })) ∧
    (∀ a ∈ extContribOpenedHandler baseEnv { basePayload with orgLogin := none },
      isCreateComment a = false ∧ isNotifyPost a = false ∧
      (∀ o u, a ≠ Action.queryMembership o u) ∧
      (∀ ow r n s sha cc, a ≠ Action.createCheck ow r n s sha cc)) ∧
    extContribSyncHandler baseEnv { basePayload with orgLogin := none } =
      (userIsOrgMember baseEnv "extdev" "Can\x27t find org!").2 ++
        (if (userIsOrgMember baseEnv "extdev" "Can\x27t find org!").1 then []
         else createContributorsAgreementReminder baseEnv { basePayload with orgLogin := none })) :=
  ⟨rfl, c3_missing_org_amended baseEnv { basePayload with orgLogin := none } rfl⟩

/-! ## C4 -/

/-- `baseEnv` whose membership query reports an unexpected status. -/
def env500 : Env :=
  { baseEnv with membershipStatus := fun _ _ => 500 }

/-- C4: the membership decision of `userIsOrgMember` — status 204 is
member; 404 is non-member with no warning (just the query in the
trace); every other status is non-member with a warning posted to the
DEBUG Slack channel carrying the status, the user and the org.  The
function is total (the `.catch` folds rejected promises into a status),
so no status throws out of the rule. -/
theorem c4_membership_decision (env : Env) (user org : String)
    (hdry : env.dryRun = false) :
    ((userIsOrgMember env user org).1 = true ↔ env.membershipStatus org user = 204) ∧
    (env.membershipStatus org user = 404 →
      userIsOrgMember env user org = (false, [Action.queryMembership org user])) ∧
    (env.membershipStatus org user ≠ 204 → env.membershipStatus org user ≠ 404 →
      (userIsOrgMember env user org).1 = false ∧
      (userIsOrgMember env user org).2 =
        [Action.queryMembership org user,
         Action.slackPost SlackChannel.debug
           (wrapMessageInBlock
             (membershipWarningText (env.membershipStatus org user) user org)
             "#DEB109" none)]) := by
  refine ⟨?_, ?_, ?_⟩
  · unfold userIsOrgMember
    simp
  · intro h404
    unfold userIsOrgMember
    simp [h404]
  · intro h204 h404
    unfold userIsOrgMember
    simp [h204, h404, slackMessageWarning, sendSlackMessage, hdry]

/-- C4, witnessed at an environment answering status 500. -/
theorem c4_membership_decision_witness :
    env500.dryRun = false ∧
    (((userIsOrgMember env500 "alice" "wiredtiger").1 = true ↔
        env500.membershipStatus "wiredtiger" "alice" = 204) ∧
     (env500.membershipStatus "wiredtiger" "alice" = 404 →
       userIsOrgMember env500 "alice" "wiredtiger" =
         (false, [Action.queryMembership "wiredtiger" "alice"])) ∧
     (env500.membershipStatus "wiredtiger" "alice" ≠ 204 →
      env500.membershipStatus "wiredtiger" "alice" ≠ 404 →
       (userIsOrgMember env500 "alice" "wiredtiger").1 = false ∧
       (userIsOrgMember env500 "alice" "wiredtiger").2 =
         [Action.queryMembership "wiredtiger" "alice",
          Action.slackPost SlackChannel.debug
            (wrapMessageInBlock
              (membershipWarningText (env500.membershipStatus "wiredtiger" "alice")
                "alice" "wiredtiger")
              "#DEB109" none)])) :=
  ⟨rfl, c4_membership_decision env500 "alice" "wiredtiger" rfl⟩

/-! ## C5 -/

/-- C5: `buildAssigneeList` over the groups matched from the ticket
components equals the spec's first-seen deduplicating fold of the
concatenated member lists (absent components contributing `[]`); every
assignee comes from some matched component's member list; and the §8
fixture yields `["alice", "bob", "carol"]`. -/
theorem c5_assignee_list (env : Env) (components : List String) (groups : List SmeGroup)
    (h : getAssignedSmeGroups env components = some groups) :
    buildAssigneeList groups =
      specDedupFirstSeen ((components.map fun c => (env.smeGroupsJson c).getD []).flatten) ∧
    (∀ a ∈ buildAssigneeList groups, ∃ c ∈ components, a ∈ (env.smeGroupsJson c).getD []) ∧
    buildAssigneeList ((getAssignedSmeGroups baseEnv ["Cache and eviction", "Logging"]).getD [])
      = ["alice", "bob", "carol"] := by
  have hgroups : groups = components.map fun c => ⟨c, env.smeGroupsJson c⟩ := by
    unfold getAssignedSmeGroups at h
    by_cases hf : env.smeFileExists <;> simp [hf] at h
    exact h.symm
  have hmap : (groups.map fun g => g.members.getD []) =
      components.map fun c => (env.smeGroupsJson c).getD [] := by
    rw [hgroups, List.map_map]
    rfl
  refine ⟨?_, ?_, rfl⟩
  · unfold buildAssigneeList
    rw [dedupFirst_eq_spec, hmap]
  · intro a ha
    unfold buildAssigneeList dedupFirst at ha
    have hmem := mem_dedupFirstAux a _ [] ha
    rw [hmap] at hmem
    rcases List.mem_flatten.mp hmem with ⟨li, hli, hali⟩
    rcases List.mem_map.mp hli with ⟨c, hc, rfl⟩
    exact ⟨c, hc, hali⟩

/-- C5, witnessed at the §8 fixture. -/
theorem c5_assignee_list_witness :
    getAssignedSmeGroups baseEnv ["Cache and eviction", "Logging"] =
      some [⟨"Cache and eviction", some ["alice", "bob"]⟩, ⟨"Logging", some ["bob", "carol"]⟩] ∧
    (buildAssigneeList
        [⟨"Cache and eviction", some ["alice", "bob"]⟩, ⟨"Logging", some ["bob", "carol"]⟩] =
      specDedupFirstSeen
        ((["Cache and eviction", "Logging"].map
            fun c => (baseEnv.smeGroupsJson c).getD []).flatten) ∧
    (∀ a ∈ buildAssigneeList
        [⟨"Cache and eviction", some ["alice", "bob"]⟩, ⟨"Logging", some ["bob", "carol"]⟩],
      ∃ c ∈ ["Cache and eviction", "Logging"], a ∈ (baseEnv.smeGroupsJson c).getD []) ∧
    buildAssigneeList ((getAssignedSmeGroups baseEnv ["Cache and eviction", "Logging"]).getD [])
      = ["alice", "bob", "carol"]) :=
  ⟨rfl, c5_assignee_list baseEnv ["Cache and eviction", "Logging"]
    [⟨"Cache and eviction", some ["alice", "bob"]⟩, ⟨"Logging", some ["bob", "carol"]⟩] rfl⟩

/-! ## C6 -/

/-- The actions of `getComponentList` are never the assignment
mutations (only a possible DEBUG warning). -/
theorem getComponentList_actions (env : Env) (t : String) :
    ∀ a ∈ (getComponentList env t).1, isAssignmentMutation a = false := by
  intro a ha
  rcases hj : env.jiraComponents t with _ | comps
  · simp only [getComponentList, hj, slackMessageWarning] at ha
    rcases sendSlackMessage_shape env _ _ _ _ a ha with ⟨s, rfl⟩ | ⟨b, rfl⟩ | ⟨n, t2, rfl⟩ <;>
      rfl
  · simp [getComponentList, hj] at ha

/-- The actions of `buildAssigneeListAndMessage` are never the
assignment mutations (only logs and a possible DEBUG warning). -/
theorem buildAssigneeListAndMessage_actions (env : Env) (p : Payload) :
    ∀ a ∈ (buildAssigneeListAndMessage env p).1, isAssignmentMutation a = false := by
  intro a ha
  rcases hx : extractWtTicket p.pullRequest.title with _ | t
  · simp only [buildAssigneeListAndMessage, hx, List.mem_singleton] at ha
    subst ha
    rfl
  · have hcomp := getComponentList_actions env t
    rcases hg : getAssignedSmeGroups env (getComponentList env t).2 with _ | groups
    · simp only [buildAssigneeListAndMessage, hx, hg] at ha
      exact hcomp a ha
    · rcases hm : buildAssigneeMessage groups (buildAssigneeList groups) with e | msg
      · simp only [buildAssigneeListAndMessage, hx, hg, hm] at ha
        exact hcomp a ha
      · by_cases hlen : ((buildAssigneeList groups).length == 0) = true
        · simp only [buildAssigneeListAndMessage, hx, hg, hm] at ha
          rw [if_pos hlen] at ha
          rcases List.mem_append.mp ha with ha | ha
          · exact hcomp a ha
          · simp at ha
            subst ha
            rfl
        · simp only [buildAssigneeListAndMessage, hx, hg, hm] at ha
          rw [if_neg hlen] at ha
          exact hcomp a ha

/-- The actions reported by `reportWebhookError` are never the
assignment mutations. -/
theorem reportWebhookError_actions (env : Env) (e : JsError) (p : Payload) (hook : String) :
    ∀ a ∈ reportWebhookError env e p hook, isAssignmentMutation a = false := by
  intro a ha
  simp only [reportWebhookError, slackMessageError] at ha
  rcases sendSlackMessage_shape env _ _ _ _ a ha with ⟨s, rfl⟩ | ⟨b, rfl⟩ | ⟨n, t2, rfl⟩ <;>
    rfl

/-- A successful non-skip outcome of `buildAssigneeListAndMessage`
requires the regex to have matched and yields a non-empty assignee
list. -/
theorem buildAssigneeListAndMessage_ok_some (env : Env) (p : Payload)
    (l : List String) (m : String)
    (h : (buildAssigneeListAndMessage env p).2 = Except.ok (some (l, m))) :
    (∃ t, extractWtTicket p.pullRequest.title = some t) ∧ l ≠ [] := by
  rcases hx : extractWtTicket p.pullRequest.title with _ | t
  · simp only [buildAssigneeListAndMessage, hx] at h
    simp at h
  · refine ⟨⟨t, rfl⟩, ?_⟩
    rcases hg : getAssignedSmeGroups env (getComponentList env t).2 with _ | groups
    · simp only [buildAssigneeListAndMessage, hx, hg] at h
      simp at h
    · rcases hm : buildAssigneeMessage groups (buildAssigneeList groups) with e | msg
      · simp only [buildAssigneeListAndMessage, hx, hg, hm] at h
        simp at h
      · by_cases hlen : ((buildAssigneeList groups).length == 0) = true
        · simp only [buildAssigneeListAndMessage, hx, hg, hm] at h
          rw [if_pos hlen] at h
          simp at h
        · simp only [buildAssigneeListAndMessage, hx, hg, hm] at h
          rw [if_neg hlen] at h
          simp only [Except.ok.injEq, Option.some.injEq, Prod.mk.injEq] at h
          intro hnil
          apply hlen
          rw [h.1, hnil]
          rfl

/-- C6 counterexample: for the ASCII title
`"Quick fix WT-4821 cleanup"`, which does NOT begin with a ticket, the
Reviewer-Assignment rule still extracts `WT-4821` (the regex is
unanchored), makes the assignment call and posts the comment. -/
theorem c6_mid_title_ticket_triggers_assignment :
    wtMatchAt ("Quick fix WT-4821 cleanup").data = false ∧
    extractWtTicket "Quick fix WT-4821 cleanup" = some "WT-4821" ∧
    assignDevelopersOpenedHandler baseEnv (payloadWithTitle "Quick fix WT-4821 cleanup") =
      [Action.log "Assigning members to PR",
       Action.addAssignees "mongodb" "wiredtiger" 42 ["alice", "bob", "carol"],
       Action.createComment "mongodb" "wiredtiger" 42
         ("Assigning the following users based on Jira ticket components:\n" ++
          "- `Cache and eviction`: alice, bob\n- `Logging`: bob, carol\n")] :=
  ⟨rfl, rfl, rfl⟩

/-- C6 amended: the Reviewer-Assignment rule makes its assignment call
and posts its comment only when the unanchored pattern
`WT-<digits><space>` matches SOMEWHERE in the PR title and the
computed assignee set is non-empty; when the regex finds no match
anywhere the rule only logs the skip, and when the assignee set is
empty (or the message construction throws) no assignment call and no
comment happen. -/
theorem c6_assignment_gating_amended (env : Env) (p : Payload) :
    (extractWtTicket p.pullRequest.title = none →
      assignDevelopersOpenedHandler env p =
        if verifyTargetIsDefaultBranch p then
          [Action.log "No WT ticket in title! skipping auto-assignment"]
        else []) ∧
    ((∃ a ∈ assignDevelopersOpenedHandler env p, isAssignmentMutation a = true) →
      (∃ t, extractWtTicket p.pullRequest.title = some t) ∧
      ∃ l m, (buildAssigneeListAndMessage env p).2 = Except.ok (some (l, m)) ∧ l ≠ []) := by
  constructor
  · intro hnone
    unfold assignDevelopersOpenedHandler handlerBoundary assignDevelopersBody
      buildAssigneeListAndMessage
    rw [hnone]
    by_cases hv : verifyTargetIsDefaultBranch p <;> simp [hv]
  · intro h
    by_cases hv : verifyTargetIsDefaultBranch p
    · rcases hr : (buildAssigneeListAndMessage env p).2 with e | o
      · exfalso
        obtain ⟨a, ha, hmut⟩ := h
        have hh : assignDevelopersOpenedHandler env p =
            (buildAssigneeListAndMessage env p).1 ++
              reportWebhookError env e p "assignDevelopers pull_request.opened" := by
          unfold assignDevelopersOpenedHandler handlerBoundary assignDevelopersBody
          simp [hv, hr]
        rw [hh] at ha
        rcases List.mem_append.mp ha with ha | ha
        · rw [buildAssigneeListAndMessage_actions env p a ha] at hmut
          exact Bool.false_ne_true hmut
        · rw [reportWebhookError_actions env e p _ a ha] at hmut
          exact Bool.false_ne_true hmut
      · rcases o with _ | ⟨l, m⟩
        · exfalso
          obtain ⟨a, ha, hmut⟩ := h
          have hh : assignDevelopersOpenedHandler env p =
              (buildAssigneeListAndMessage env p).1 := by
            unfold assignDevelopersOpenedHandler handlerBoundary assignDevelopersBody
            simp [hv, hr]
          rw [hh] at ha
          rw [buildAssigneeListAndMessage_actions env p a ha] at hmut
          exact Bool.false_ne_true hmut
        · obtain ⟨ht, hne⟩ :=
            buildAssigneeListAndMessage_ok_some env p l m hr
          exact ⟨ht, l, m, rfl, hne⟩
    · exfalso
      obtain ⟨a, ha, hmut⟩ := h
      have hh : assignDevelopersOpenedHandler env p = [] := by
        unfold assignDevelopersOpenedHandler handlerBoundary assignDevelopersBody
        simp [hv]
      rw [hh] at ha
      simp at ha

/-- C6 amended, witnessed at the mid-title-ticket payload. -/
theorem c6_assignment_gating_amended_witness :
    (∃ t, extractWtTicket
      (payloadWithTitle "Quick fix WT-4821 cleanup").pullRequest.title = some t) ∧
    ∃ l m, (buildAssigneeListAndMessage baseEnv
        (payloadWithTitle "Quick fix WT-4821 cleanup")).2 = Except.ok (some (l, m)) ∧
      l ≠ [] :=
  (c6_assignment_gating_amended baseEnv (payloadWithTitle "Quick fix WT-4821 cleanup")).2
    ⟨Action.addAssignees "mongodb" "wiredtiger" 42 ["alice", "bob", "carol"],
      by decide, rfl⟩

/-! ## C7 -/

/-- `sendSlackMessage` never creates an issue comment. -/
theorem filter_comment_sendSlack (env : Env) (m c : String) (ch : SlackChannel)
    (st : Option String) :
    (sendSlackMessage env m c ch st).filter isCreateComment = [] := by
  apply List.filter_eq_nil_iff.mpr
  intro a ha
  rcases sendSlackMessage_shape env m c ch st a ha with ⟨s, rfl⟩ | ⟨b, rfl⟩ | ⟨n, t, rfl⟩ <;>
    simp [isCreateComment]

/-- The contributors-agreement reminder neither comments nor posts to
the NOTIFY channel. -/
theorem reminder_no_comment_notify (env : Env) (p : Payload) :
    ∀ a ∈ createContributorsAgreementReminder env p,
      isCreateComment a = false ∧ isNotifyPost a = false := by
  intro a ha
  unfold createContributorsAgreementReminder at ha
  rcases List.mem_cons.mp ha with rfl | ha
  · exact ⟨rfl, rfl⟩
  · by_cases hdry : env.dryRun = true
    · simp only [hdry, if_true, List.mem_singleton] at ha
      subst ha
      exact ⟨rfl, rfl⟩
    · simp only [Bool.not_eq_true] at hdry
      simp only [hdry, Bool.false_eq_true, if_false, List.mem_singleton] at ha
      subst ha
      exact ⟨rfl, rfl⟩

/-- The `synchronize` handler of the External-Contributor rule never
posts the welcome comment (it creates no comment at all) and never
posts to the NOTIFY channel. -/
theorem extContribSync_no_comment_notify (env : Env) (q : Payload) :
    ∀ a ∈ extContribSyncHandler env q,
      isCreateComment a = false ∧ isNotifyPost a = false := by
  intro a ha
  unfold extContribSyncHandler at ha
  rcases List.mem_append.mp ha with ha | ha
  · simp only [userIsOrgMember] at ha
    rcases List.mem_cons.mp ha with rfl | ha
    · exact ⟨rfl, rfl⟩
    · split at ha
      · simp only [slackMessageWarning] at ha
        rcases sendSlackMessage_shape env _ _ _ _ a ha with ⟨s, rfl⟩ | ⟨b, rfl⟩ | ⟨n, t, rfl⟩ <;>
          exact ⟨rfl, rfl⟩
      · simp at ha
  · split at ha
    · simp at ha
    · exact reminder_no_comment_notify env q a ha

/-- The `opened` handler creates at most one issue comment (the
welcome comment, and only for a non-member in live mode). -/
theorem extContribOpened_comment_count (env : Env) (p : Payload) :
    ((extContribOpenedHandler env p).filter isCreateComment).length ≤ 1 := by
  unfold extContribOpenedHandler
  rcases horg : p.orgLogin with _ | org
  · simp only [slackMessageWarning, filter_comment_sendSlack, List.length_nil]
    omega
  · simp only [userIsOrgMember, List.filter_append, List.length_append, List.filter_cons,
      isCreateComment, Bool.false_eq_true, if_false]
    have hwarn :
        (List.filter isCreateComment
          (if (env.membershipStatus org p.pullRequest.userLogin != 204 &&
               env.membershipStatus org p.pullRequest.userLogin != 404) = true then
            slackMessageWarning env
              (membershipWarningText (env.membershipStatus org p.pullRequest.userLogin)
                p.pullRequest.userLogin org) none
          else [])).length = 0 := by
      split
      · simp only [slackMessageWarning, filter_comment_sendSlack, List.length_nil]
      · simp
    rw [hwarn]
    split
    · simp
    · simp only [List.filter_append, List.length_append]
      have hrem : (List.filter isCreateComment
          (createContributorsAgreementReminder env p)).length = 0 := by
        rw [List.filter_eq_nil_iff.mpr fun a ha => by
          simp [(reminder_no_comment_notify env p a ha).1]]
        rfl
      have hnot : (List.filter isCreateComment
          (notifySlackOfNewPr env p p.pullRequest.userLogin)).length = 0 := by
        simp only [notifySlackOfNewPr, slackMessageNotification, filter_comment_sendSlack,
          List.length_nil]
      rw [hrem, hnot]
      unfold externalContributorWelcomeMessage
      split
      · simp [isCreateComment]
      · simp [isCreateComment]

/-- A trace of `synchronize`-only deliveries produces no issue
comment. -/
theorem extContribTrace_sync_no_comment (env : Env) (events : List Event)
    (hsync : ∀ e ∈ events, ∃ q, e = Event.synchronize q) :
    (extContribTrace env events).filter isCreateComment = [] := by
  induction events with
  | nil => rfl
  | cons e es ih =>
    obtain ⟨q, rfl⟩ := hsync e (List.mem_cons_self e es)
    have hes := ih fun e2 he2 => hsync e2 (List.mem_cons_of_mem _ he2)
    unfold extContribTrace at hes ⊢
    simp only [List.map_cons, List.flatten_cons, List.filter_append, hes, List.append_nil]
    apply List.filter_eq_nil_iff.mpr
    intro a ha
    simp only [extContribHandle] at ha
    simp [(extContribSync_no_comment_notify env q a ha).1]

/-- C7: `pull_request.synchronize` deliveries never post the welcome
comment (no comment at all) and never post the team notification; over
a delivery trace of one `opened` followed by any number of
`synchronize` events, at most one issue comment is ever created. -/
theorem c7_welcome_at_most_once (env : Env) (p : Payload) (events : List Event)
    (hsync : ∀ e ∈ events, ∃ q, e = Event.synchronize q) :
    (∀ q : Payload, ∀ a ∈ extContribSyncHandler env q,
      isCreateComment a = false ∧ isNotifyPost a = false) ∧
    ((extContribTrace env (Event.opened p :: events)).filter isCreateComment).length ≤ 1 := by
  refine ⟨fun q => extContribSync_no_comment_notify env q, ?_⟩
  have hes := extContribTrace_sync_no_comment env events hsync
  unfold extContribTrace at hes ⊢
  simp only [List.map_cons, List.flatten_cons, List.filter_append, hes, List.length_append,
    List.length_nil]
  simpa [extContribHandle] using extContribOpened_comment_count env p

/-- C7, witnessed on the trace `opened` then one `synchronize`. -/
theorem c7_welcome_at_most_once_witness :
    (∀ e ∈ [Event.synchronize basePayload], ∃ q, e = Event.synchronize q) ∧
    ((∀ q : Payload, ∀ a ∈ extContribSyncHandler baseEnv q,
       isCreateComment a = false ∧ isNotifyPost a = false) ∧
     ((extContribTrace baseEnv
         (Event.opened basePayload :: [Event.synchronize basePayload])).filter
           isCreateComment).length ≤ 1) :=
  ⟨fun e he => ⟨basePayload, by simpa using he⟩,
   c7_welcome_at_most_once baseEnv basePayload [Event.synchronize basePayload]
     fun e he => ⟨basePayload, by simpa using he⟩⟩

/-! ## C8 -/

/-- The per-hook catch-all boundary lets nothing escape. -/
theorem handlerBoundary_none (body : Env → Payload → List Action × Option JsError)
    (hook : String) (env : Env) (p : Payload) :
    (handlerBoundary body hook env p).2 = none := by
  unfold handlerBoundary
  cases h : (body env p).2 <;> simp [h]

/-- Dispatching any list of boundary-wrapped handlers runs them all
and simply concatenates their traces: no handler's failure reaches the
router or suppresses a later handler. -/
theorem dispatch_wrapped (env : Env) (p : Payload)
    (bodies : List (String × (Env → Payload → List Action × Option JsError))) :
    dispatch (bodies.map fun bh => handlerBoundary bh.2 bh.1) env p =
      ((bodies.map fun bh => (handlerBoundary bh.2 bh.1 env p).1).flatten, none) := by
  induction bodies with
  | nil => rfl
  | cons bh rest ih =>
    simp only [List.map_cons, List.flatten_cons]
    unfold dispatch
    simp only [handlerBoundary_none bh.2 bh.1 env p, ih]

/-- The assembled context contains the stack dump, the error JSON and
the payload JSON. -/
theorem webhookErrContext_contains (e : JsError) (p : Payload) :
    strContainsSub e.stack (webhookErrContext e p) = true ∧
    strContainsSub e.json (webhookErrContext e p) = true ∧
    strContainsSub (jsonStringifyPayload p) (webhookErrContext e p) = true := by
  unfold webhookErrContext strContainsSub
  refine ⟨?_, ?_, ?_⟩
  · have h := listContainsSub_middle e.stack.data
      ("Stack trace: \n=================\n").data
      (("\n\nError:   \n=================\n").data ++
        (e.json.data ++ (("\n\nPayload: \n=================\n").data ++
          (jsonStringifyPayload p).data)))
    simpa [String.data_append, List.append_assoc] using h
  · have h := listContainsSub_middle e.json.data
      (("Stack trace: \n=================\n").data ++
        (e.stack.data ++ ("\n\nError:   \n=================\n").data))
      (("\n\nPayload: \n=================\n").data ++ (jsonStringifyPayload p).data)
    simpa [String.data_append, List.append_assoc] using h
  · have h := listContainsSub_middle (jsonStringifyPayload p).data
      (("Stack trace: \n=================\n").data ++
        (e.stack.data ++ (("\n\nError:   \n=================\n").data ++
          (e.json.data ++ ("\n\nPayload: \n=================\n").data))))
      []
    simpa [String.data_append, List.append_assoc] using h

/-- C8: an error escaping a hook body is caught by that hook's own
boundary: the boundary never lets anything escape; it appends the
`reportWebhookError` trace, whose context contains the stack dump, the
error JSON and the payload JSON, and which (in live mode) ends with a
POST to the DEBUG channel; and the router dispatch of any list of
boundary-wrapped handlers runs every one of them and aggregates their
traces, so one rule's failure never reaches the router or suppresses
another rule's handler. -/
theorem c8_handler_error_isolation
    (body : Env → Payload → List Action × Option JsError) (hook : String)
    (env : Env) (p : Payload) (e : JsError)
    (bodies : List (String × (Env → Payload → List Action × Option JsError)))
    (hdry : env.dryRun = false) (herr : (body env p).2 = some e) :
    (∀ body2 hook2 env2 p2, (handlerBoundary body2 hook2 env2 p2).2 = none) ∧
    handlerBoundary body hook env p =
      ((body env p).1 ++ reportWebhookError env e p hook, none) ∧
    strContainsSub e.stack (webhookErrContext e p) = true ∧
    strContainsSub e.json (webhookErrContext e p) = true ∧
    strContainsSub (jsonStringifyPayload p) (webhookErrContext e p) = true ∧
    (∃ pre b, reportWebhookError env e p hook =
      pre ++ [Action.slackPost SlackChannel.debug b]) ∧
    dispatch (bodies.map fun bh => handlerBoundary bh.2 bh.1) env p =
      ((bodies.map fun bh => (handlerBoundary bh.2 bh.1 env p).1).flatten, none) := by
  obtain ⟨hstack, hjson, hpayload⟩ := webhookErrContext_contains e p
  refine ⟨handlerBoundary_none, ?_, hstack, hjson, hpayload, ?_, dispatch_wrapped env p bodies⟩
  · unfold handlerBoundary
    simp only [herr]
  · unfold reportWebhookError slackMessageError sendSlackMessage
    simp only [hdry, Bool.false_eq_true, if_false]
    exact ⟨_, _, rfl⟩

/-- A thrown fixture error. -/
def errFixture : JsError :=
  { json := "\x7b\x7d", stack := "TypeError: boom" }

/-- A hook body that throws `errFixture` after doing nothing. -/
def failingBody : Env → Payload → List Action × Option JsError :=
  fun _ _ => ([], some errFixture)

/-- A hook body that logs and succeeds. -/
def okBody : Env → Payload → List Action × Option JsError :=
  fun _ _ => ([Action.log "ok"], none)

/-- C8, witnessed with a failing rule dispatched ahead of a succeeding
one. -/
theorem c8_handler_error_isolation_witness :
    baseEnv.dryRun = false ∧ (failingBody baseEnv basePayload).2 = some errFixture ∧
    ((∀ body2 hook2 env2 p2, (handlerBoundary body2 hook2 env2 p2).2 = none) ∧
     handlerBoundary failingBody "assignDevelopers pull_request.opened" baseEnv basePayload =
       ((failingBody baseEnv basePayload).1 ++
         reportWebhookError baseEnv errFixture basePayload
           "assignDevelopers pull_request.opened", none) ∧
     strContainsSub errFixture.stack (webhookErrContext errFixture basePayload) = true ∧
     strContainsSub errFixture.json (webhookErrContext errFixture basePayload) = true ∧
     strContainsSub (jsonStringifyPayload basePayload)
       (webhookErrContext errFixture basePayload) = true ∧
     (∃ pre b, reportWebhookError baseEnv errFixture basePayload
         "assignDevelopers pull_request.opened" =
       pre ++ [Action.slackPost SlackChannel.debug b]) ∧
     dispatch
       ([("assignDevelopers pull_request.opened", failingBody),
         ("prTitleValidation pull_request.opened", okBody)].map
           fun bh => handlerBoundary bh.2 bh.1) baseEnv basePayload =
       (([("assignDevelopers pull_request.opened", failingBody),
          ("prTitleValidation pull_request.opened", okBody)].map
            fun bh => (handlerBoundary bh.2 bh.1 baseEnv basePayload).1).flatten, none)) :=
  ⟨rfl, rfl,
   c8_handler_error_isolation failingBody "assignDevelopers pull_request.opened"
     baseEnv basePayload errFixture
     [("assignDevelopers pull_request.opened", failingBody),
      ("prTitleValidation pull_request.opened", okBody)] rfl rfl⟩

/-! ## C9 -/

/-- `baseEnv` with the dry-run flag set. -/
def dryEnv : Env :=
  { baseEnv with dryRun := true }

/-- In dry-run mode `sendSlackMessage` performs no outbound mutation
(only the log line and possibly the local trace-file write). -/
theorem dry_sendSlack_no_mutation (env : Env) (m c : String) (ch : SlackChannel)
    (st : Option String) (hdry : env.dryRun = true) :
    ∀ a ∈ sendSlackMessage env m c ch st, a.isOutboundMutation = false := by
  intro a ha
  unfold sendSlackMessage at ha
  rcases List.mem_append.mp ha with ha | ha
  · rcases st with _ | t
    · simp at ha
    · by_cases hlen : 2950 < t.length
      · simp only [hlen, if_true, List.mem_singleton] at ha
        subst ha
        rfl
      · simp [hlen] at ha
  · simp only [hdry, if_true, List.mem_singleton] at ha
    subst ha
    rfl

/-- In dry-run mode a no-stack-trace Slack send is exactly one log
line holding the very JSON body that would have been POSTed. -/
theorem dry_sendSlack_content (env : Env) (m c : String) (ch : SlackChannel)
    (hdry : env.dryRun = true) :
    sendSlackMessage env m c ch none =
      [Action.log ("Dry run: Sending slack message:\n" ++
        wrapMessageInBlock m c none ++ "\n")] := by
  unfold sendSlackMessage
  simp [hdry]

/-- In dry-run mode the title check reduces to the conclusion log. -/
theorem dry_runPrTitleCheck (env : Env) (p : Payload) (sha : String)
    (hdry : env.dryRun = true) :
    runPrTitleCheck env p sha =
      [Action.log ("Dry run: Reporting pr_title check result: " ++
        conclusionStr (runPrTitleCheckConclusion p.pullRequest.title))] := by
  unfold runPrTitleCheck
  simp [hdry]

/-- In dry-run mode the welcome comment is replaced by a log of its
full body. -/
theorem dry_welcome (env : Env) (p : Payload) (s : String) (hdry : env.dryRun = true) :
    externalContributorWelcomeMessage env p s =
      [Action.log ("Dry run: posting comment\n" ++ externalContributorWelcomeBody s)] := by
  unfold externalContributorWelcomeMessage
  simp [hdry]

/-- In dry-run mode the contributors-agreement reminder reduces to two
log lines. -/
theorem dry_reminder (env : Env) (p : Payload) (hdry : env.dryRun = true) :
    createContributorsAgreementReminder env p =
      [Action.log "Creating new contributors agreement check",
       Action.log "Dry run: Adding \x27please check contributors agreement\x27 reminder"] := by
  unfold createContributorsAgreementReminder
  simp [hdry]

/-- In dry-run mode the assignment call and comment are replaced by
logs of the full assignee list and the full message. -/
theorem dry_assignDevelopers (env : Env) (p : Payload) (l : List String) (m : String)
    (hdry : env.dryRun = true) :
    assignDevelopers env p l m =
      [Action.log "Assigning members to PR",
       Action.log ("Dry run: assignee list: [" ++ String.intercalate ", " l ++ "]"),
       Action.log ("Dry run: PR message: \n\"\"\"\n" ++ m ++ "\n\"\"\"")] := by
  unfold assignDevelopers
  simp [hdry]

/-- In dry-run mode `reportWebhookError` performs no outbound
mutation. -/
theorem dry_report_no_mutation (env : Env) (e : JsError) (p : Payload) (hook : String)
    (hdry : env.dryRun = true) :
    ∀ a ∈ reportWebhookError env e p hook, a.isOutboundMutation = false := by
  intro a ha
  simp only [reportWebhookError, slackMessageError] at ha
  exact dry_sendSlack_no_mutation env _ _ _ _ hdry a ha

/-- In dry-run mode the build phase of the Reviewer-Assignment rule
performs no outbound mutation. -/
theorem dry_buildAssignee_no_mutation (env : Env) (p : Payload) (hdry : env.dryRun = true) :
    ∀ a ∈ (buildAssigneeListAndMessage env p).1, a.isOutboundMutation = false := by
  intro a ha
  rcases hx : extractWtTicket p.pullRequest.title with _ | t
  · simp only [buildAssigneeListAndMessage, hx, List.mem_singleton] at ha
    subst ha
    rfl
  · have hcomp : ∀ a ∈ (getComponentList env t).1, a.isOutboundMutation = false := by
      intro a2 ha2
      rcases hj : env.jiraComponents t with _ | comps
      · simp only [getComponentList, hj, slackMessageWarning] at ha2
        exact dry_sendSlack_no_mutation env _ _ _ _ hdry a2 ha2
      · simp [getComponentList, hj] at ha2
    rcases hg : getAssignedSmeGroups env (getComponentList env t).2 with _ | groups
    · simp only [buildAssigneeListAndMessage, hx, hg] at ha
      exact hcomp a ha
    · rcases hm : buildAssigneeMessage groups (buildAssigneeList groups) with e | msg
      · simp only [buildAssigneeListAndMessage, hx, hg, hm] at ha
        exact hcomp a ha
      · by_cases hlen : ((buildAssigneeList groups).length == 0) = true
        · simp only [buildAssigneeListAndMessage, hx, hg, hm] at ha
          rw [if_pos hlen] at ha
          rcases List.mem_append.mp ha with ha | ha
          · exact hcomp a ha
          · simp at ha
            subst ha
            rfl
        · simp only [buildAssigneeListAndMessage, hx, hg, hm] at ha
          rw [if_neg hlen] at ha
          exact hcomp a ha

/-- Case analysis of the whole Reviewer-Assignment `opened` handler. -/
theorem assignOpened_cases (env : Env) (p : Payload) :
    assignDevelopersOpenedHandler env p = [] ∨
    (∃ e, (buildAssigneeListAndMessage env p).2 = Except.error e ∧
      assignDevelopersOpenedHandler env p =
        (buildAssigneeListAndMessage env p).1 ++
          reportWebhookError env e p "assignDevelopers pull_request.opened") ∨
    ((buildAssigneeListAndMessage env p).2 = Except.ok none ∧
      assignDevelopersOpenedHandler env p = (buildAssigneeListAndMessage env p).1) ∨
    (∃ l m, (buildAssigneeListAndMessage env p).2 = Except.ok (some (l, m)) ∧
      assignDevelopersOpenedHandler env p =
        (buildAssigneeListAndMessage env p).1 ++ assignDevelopers env p l m) := by
  by_cases hv : verifyTargetIsDefaultBranch p
  · rcases hr : (buildAssigneeListAndMessage env p).2 with e | o
    · refine Or.inr (Or.inl ⟨e, rfl, ?_⟩)
      unfold assignDevelopersOpenedHandler handlerBoundary assignDevelopersBody
      simp [hv, hr]
    · rcases o with _ | ⟨l, m⟩
      · refine Or.inr (Or.inr (Or.inl ⟨rfl, ?_⟩))
        unfold assignDevelopersOpenedHandler handlerBoundary assignDevelopersBody
        simp [hv, hr]
      · refine Or.inr (Or.inr (Or.inr ⟨l, m, rfl, ?_⟩))
        unfold assignDevelopersOpenedHandler handlerBoundary assignDevelopersBody
        simp [hv, hr]
  · refine Or.inl ?_
    unfold assignDevelopersOpenedHandler handlerBoundary assignDevelopersBody
    simp [hv]

/-- `getAssignedSmeGroups` ignores the dry-run flag. -/
theorem getAssignedSmeGroups_dry_invariant (env : Env) (xs : List String) (b : Bool) :
    getAssignedSmeGroups { env with dryRun := b } xs = getAssignedSmeGroups env xs := rfl

/-- The component list fetched from Jira ignores the dry-run flag. -/
theorem getComponentList_snd_dry_invariant (env : Env) (t : String) (b : Bool) :
    (getComponentList { env with dryRun := b } t).2 = (getComponentList env t).2 := by
  unfold getComponentList
  rcases hj : env.jiraComponents t with _ | comps <;> simp [hj]

/-- The decision (skip / throw / assignee list and message) of the
Reviewer-Assignment rule is identical with and without the dry-run
flag; only the actions differ. -/
theorem buildAssignee_result_dry_invariant (env : Env) (p : Payload) (b : Bool) :
    (buildAssigneeListAndMessage { env with dryRun := b } p).2 =
      (buildAssigneeListAndMessage env p).2 := by
  rcases hx : extractWtTicket p.pullRequest.title with _ | t
  · simp only [buildAssigneeListAndMessage, hx]
  · have hgl : getAssignedSmeGroups { env with dryRun := b }
        ((getComponentList { env with dryRun := b } t).2) =
        getAssignedSmeGroups env ((getComponentList env t).2) := by
      rw [getAssignedSmeGroups_dry_invariant, getComponentList_snd_dry_invariant]
    rcases hg : getAssignedSmeGroups env ((getComponentList env t).2) with _ | groups
    · simp only [buildAssigneeListAndMessage, hx, hg, hgl.trans hg]
    · rcases hm : buildAssigneeMessage groups (buildAssigneeList groups) with e | msg
      · simp only [buildAssigneeListAndMessage, hx, hg, hgl.trans hg, hm]
      · by_cases hlen : ((buildAssigneeList groups).length == 0) = true
        · simp only [buildAssigneeListAndMessage, hx, hg, hgl.trans hg, hm]
          rw [if_pos hlen, if_pos hlen]
        · simp only [buildAssigneeListAndMessage, hx, hg, hgl.trans hg, hm]
          rw [if_neg hlen, if_neg hlen]

/-- Dry-run leaves the external-contributor `opened` handler free of
outbound mutations. -/
theorem dry_extContribOpened_no_mutation (env : Env) (p : Payload)
    (hdry : env.dryRun = true) :
    ∀ a ∈ extContribOpenedHandler env p, a.isOutboundMutation = false := by
  intro a ha
  unfold extContribOpenedHandler at ha
  rcases horg : p.orgLogin with _ | org
  · rw [horg] at ha
    simp only [slackMessageWarning] at ha
    exact dry_sendSlack_no_mutation env _ _ _ _ hdry a ha
  · rw [horg] at ha
    simp only [userIsOrgMember] at ha
    rcases List.mem_append.mp ha with ha | ha
    · rcases List.mem_cons.mp ha with rfl | ha
      · rfl
      · split at ha
        · simp only [slackMessageWarning] at ha
          exact dry_sendSlack_no_mutation env _ _ _ _ hdry a ha
        · simp at ha
    · split at ha
      · simp at ha
      · rcases List.mem_append.mp ha with ha | ha
        · rcases List.mem_append.mp ha with ha | ha
          · rw [dry_welcome env p _ hdry] at ha
            simp at ha
            subst ha
            rfl
          · rw [dry_reminder env p hdry] at ha
            rcases List.mem_cons.mp ha with rfl | ha
            · rfl
            · simp at ha
              subst ha
              rfl
        · simp only [notifySlackOfNewPr, slackMessageNotification] at ha
          exact dry_sendSlack_no_mutation env _ _ _ _ hdry a ha

/-- Dry-run leaves the external-contributor `synchronize` handler free
of outbound mutations. -/
theorem dry_extContribSync_no_mutation (env : Env) (p : Payload)
    (hdry : env.dryRun = true) :
    ∀ a ∈ extContribSyncHandler env p, a.isOutboundMutation = false := by
  intro a ha
  unfold extContribSyncHandler at ha
  simp only [userIsOrgMember] at ha
  rcases List.mem_append.mp ha with ha | ha
  · rcases List.mem_cons.mp ha with rfl | ha
    · rfl
    · split at ha
      · simp only [slackMessageWarning] at ha
        exact dry_sendSlack_no_mutation env _ _ _ _ hdry a ha
      · simp at ha
  · split at ha
    · simp at ha
    · rw [dry_reminder env p hdry] at ha
      rcases List.mem_cons.mp ha with rfl | ha
      · rfl
      · simp at ha
        subst ha
        rfl

/-- Dry-run leaves the Reviewer-Assignment `opened` handler free of
outbound mutations. -/
theorem dry_assignOpened_no_mutation (env : Env) (p : Payload)
    (hdry : env.dryRun = true) :
    ∀ a ∈ assignDevelopersOpenedHandler env p, a.isOutboundMutation = false := by
  intro a ha
  rcases assignOpened_cases env p with hc | ⟨e, _, hc⟩ | ⟨_, hc⟩ | ⟨l, m, _, hc⟩ <;>
    rw [hc] at ha
  · simp at ha
  · rcases List.mem_append.mp ha with ha | ha
    · exact dry_buildAssignee_no_mutation env p hdry a ha
    · exact dry_report_no_mutation env e p _ hdry a ha
  · exact dry_buildAssignee_no_mutation env p hdry a ha
  · rcases List.mem_append.mp ha with ha | ha
    · exact dry_buildAssignee_no_mutation env p hdry a ha
    · rw [dry_assignDevelopers env p l m hdry] at ha
      rcases List.mem_cons.mp ha with rfl | ha
      · rfl
      · rcases List.mem_cons.mp ha with rfl | ha
        · rfl
        · simp at ha
          subst ha
          rfl

/-- C9 counterexample: in dry-run mode the suppressed
contributors-agreement check creation is replaced by the fixed line
`Dry run: Adding 'please check contributors agreement' reminder`,
which carries neither the check's name nor its summary — not a log
line of identical content. -/
theorem c9_dry_check_log_not_identical :
    createContributorsAgreementReminder dryEnv basePayload =
      [Action.log "Creating new contributors agreement check",
       Action.log "Dry run: Adding \x27please check contributors agreement\x27 reminder"] ∧
    createContributorsAgreementReminder baseEnv basePayload =
      [Action.log "Creating new contributors agreement check",
       Action.createCheck "mongodb" "wiredtiger" externalContributorCheckName
         contributorsAgreementSummary "abc123" Conclusion.neutral] ∧
    strContainsSub externalContributorCheckName
      "Creating new contributors agreement check" = false ∧
    strContainsSub externalContributorCheckName
      "Dry run: Adding \x27please check contributors agreement\x27 reminder" = false ∧
    strContainsSub contributorsAgreementSummary
      "Creating new contributors agreement check" = false ∧
    strContainsSub contributorsAgreementSummary
      "Dry run: Adding \x27please check contributors agreement\x27 reminder" = false :=
  ⟨rfl, rfl, rfl, rfl, rfl, rfl⟩

/-- C9 amended: with the dry-run flag set every handler performs zero
outbound mutating calls; the suppressed comment creation, assignee
addition and notification posts are each replaced by log lines of the
identical content (the full comment body, the full assignee list and
message, the exact JSON body); the suppressed check creations are
replaced by log lines recording only the computed conclusion (title
check) or a fixed reminder sentence (agreement check), not the full
check content; and the decisions themselves (title-check conclusion,
assignee list and message) are computed exactly as in live mode. -/
theorem c9_dry_run_amended (env : Env) (p : Payload) (hdry : env.dryRun = true) :
    (∀ a ∈ prTitleOpenedHandler env p, a.isOutboundMutation = false) ∧
    (∀ a ∈ prTitleEditedHandler env p, a.isOutboundMutation = false) ∧
    (∀ a ∈ prTitleSyncHandler env p, a.isOutboundMutation = false) ∧
    (∀ a ∈ extContribOpenedHandler env p, a.isOutboundMutation = false) ∧
    (∀ a ∈ extContribSyncHandler env p, a.isOutboundMutation = false) ∧
    (∀ a ∈ assignDevelopersOpenedHandler env p, a.isOutboundMutation = false) ∧
    runPrTitleCheck env p p.pullRequest.headSha =
      [Action.log ("Dry run: Reporting pr_title check result: " ++
        conclusionStr (runPrTitleCheckConclusion p.pullRequest.title))] ∧
    (∀ s, externalContributorWelcomeMessage env p s =
      [Action.log ("Dry run: posting comment\n" ++ externalContributorWelcomeBody s)]) ∧
    (∀ l m, assignDevelopers env p l m =
      [Action.log "Assigning members to PR",
       Action.log ("Dry run: assignee list: [" ++ String.intercalate ", " l ++ "]"),
       Action.log ("Dry run: PR message: \n\"\"\"\n" ++ m ++ "\n\"\"\"")]) ∧
    (∀ m c ch, sendSlackMessage env m c ch none =
      [Action.log ("Dry run: Sending slack message:\n" ++
        wrapMessageInBlock m c none ++ "\n")]) ∧
    (∀ b, (buildAssigneeListAndMessage { env with dryRun := b } p).2 =
      (buildAssigneeListAndMessage env p).2) := by
  refine ⟨?_, ?_, ?_, dry_extContribOpened_no_mutation env p hdry,
    dry_extContribSync_no_mutation env p hdry, dry_assignOpened_no_mutation env p hdry,
    dry_runPrTitleCheck env p _ hdry, fun s => dry_welcome env p s hdry,
    fun l m => dry_assignDevelopers env p l m hdry,
    fun m c ch => dry_sendSlack_content env m c ch hdry,
    fun b => buildAssignee_result_dry_invariant env p b⟩
  · intro a ha
    unfold prTitleOpenedHandler at ha
    split at ha
    · rw [dry_runPrTitleCheck env p _ hdry] at ha
      simp at ha
      subst ha
      rfl
    · simp at ha
  · intro a ha
    unfold prTitleEditedHandler at ha
    split at ha
    · split at ha
      · rw [dry_runPrTitleCheck env p _ hdry] at ha
        simp at ha
        subst ha
        rfl
      · simp at ha
    · simp at ha
  · intro a ha
    unfold prTitleSyncHandler at ha
    rw [dry_runPrTitleCheck env p _ hdry] at ha
    simp at ha
    subst ha
    rfl

/-- C9 amended, witnessed at the dry-run fixture environment. -/
theorem c9_dry_run_amended_witness :
    dryEnv.dryRun = true ∧
    ((∀ a ∈ prTitleOpenedHandler dryEnv basePayload, a.isOutboundMutation = false) ∧
     (∀ a ∈ prTitleEditedHandler dryEnv basePayload, a.isOutboundMutation = false) ∧
     (∀ a ∈ prTitleSyncHandler dryEnv basePayload, a.isOutboundMutation = false) ∧
     (∀ a ∈ extContribOpenedHandler dryEnv basePayload, a.isOutboundMutation = false) ∧
     (∀ a ∈ extContribSyncHandler dryEnv basePayload, a.isOutboundMutation = false) ∧
     (∀ a ∈ assignDevelopersOpenedHandler dryEnv basePayload,
       a.isOutboundMutation = false) ∧
     runPrTitleCheck dryEnv basePayload basePayload.pullRequest.headSha =
       [Action.log ("Dry run: Reporting pr_title check result: " ++
         conclusionStr (runPrTitleCheckConclusion basePayload.pullRequest.title))] ∧
     (∀ s, externalContributorWelcomeMessage dryEnv basePayload s =
       [Action.log ("Dry run: posting comment\n" ++ externalContributorWelcomeBody s)]) ∧
     (∀ l m, assignDevelopers dryEnv basePayload l m =
       [Action.log "Assigning members to PR",
        Action.log ("Dry run: assignee list: [" ++ String.intercalate ", " l ++ "]"),
        Action.log ("Dry run: PR message: \n\"\"\"\n" ++ m ++ "\n\"\"\"")]) ∧
     (∀ m c ch, sendSlackMessage dryEnv m c ch none =
       [Action.log ("Dry run: Sending slack message:\n" ++
         wrapMessageInBlock m c none ++ "\n")]) ∧
     (∀ b, (buildAssigneeListAndMessage { dryEnv with dryRun := b } basePayload).2 =
       (buildAssigneeListAndMessage dryEnv basePayload).2)) :=
  ⟨rfl, c9_dry_run_amended dryEnv basePayload rfl⟩

/-! ## C10 -/

/-- `baseEnv` with no SME-groups file on disk. -/
def noFileEnv : Env :=
  { baseEnv with smeFileExists := false }

/-- C10: with the SME-groups file missing, `getAssignedSmeGroups`
returns `undefined`; iterating it makes the handler throw (the
modelled `TypeError`), which is caught at the handler boundary and
reported as an unexpected error — in live mode with a POST to the
DEBUG channel — and no assignment call or comment is made (the
graceful "no developers found" skip does not happen). -/
theorem c10_missing_sme_file (env : Env) (p : Payload) (t : String)
    (hfile : env.smeFileExists = false)
    (ht : extractWtTicket p.pullRequest.title = some t)
    (hv : verifyTargetIsDefaultBranch p = true) :
    getAssignedSmeGroups env ((getComponentList env t).2) = none ∧
    (assignDevelopersBody env p).2 = some smeGroupsUndefinedError ∧
    assignDevelopersOpenedHandler env p =
      (getComponentList env t).1 ++
        reportWebhookError env smeGroupsUndefinedError p
          "assignDevelopers pull_request.opened" ∧
    (∀ a ∈ assignDevelopersOpenedHandler env p, isAssignmentMutation a = false) ∧
    (env.dryRun = false →
      ∃ b, Action.slackPost SlackChannel.debug b ∈ assignDevelopersOpenedHandler env p) := by
  have hg : getAssignedSmeGroups env ((getComponentList env t).2) = none := by
    unfold getAssignedSmeGroups
    simp [hfile]
  have hblam : buildAssigneeListAndMessage env p =
      ((getComponentList env t).1, Except.error smeGroupsUndefinedError) := by
    unfold buildAssigneeListAndMessage
    simp only [ht, hg]
  have hhandler : assignDevelopersOpenedHandler env p =
      (getComponentList env t).1 ++
        reportWebhookError env smeGroupsUndefinedError p
          "assignDevelopers pull_request.opened" := by
    unfold assignDevelopersOpenedHandler handlerBoundary assignDevelopersBody
    simp [hv, hblam]
  have hbody : (assignDevelopersBody env p).2 = some smeGroupsUndefinedError := by
    unfold assignDevelopersBody
    simp [hv, hblam]
  refine ⟨hg, hbody, hhandler, ?_, ?_⟩
  · intro a ha
    rw [hhandler] at ha
    rcases List.mem_append.mp ha with ha | ha
    · exact getComponentList_actions env t a ha
    · exact reportWebhookError_actions env _ p _ a ha
  · intro hdry
    rw [hhandler]
    unfold reportWebhookError slackMessageError sendSlackMessage
    simp only [hdry, Bool.false_eq_true, if_false]
    exact ⟨_, List.mem_append_right _ (List.mem_append_right _ (List.mem_singleton_self _))⟩

/-- C10, witnessed with the SME-file-less environment and the base
payload (whose title starts with `WT-4821`). -/
theorem c10_missing_sme_file_witness :
    noFileEnv.smeFileExists = false ∧
    extractWtTicket basePayload.pullRequest.title = some "WT-4821" ∧
    verifyTargetIsDefaultBranch basePayload = true ∧
    (getAssignedSmeGroups noFileEnv ((getComponentList noFileEnv "WT-4821").2) = none ∧
     (assignDevelopersBody noFileEnv basePayload).2 = some smeGroupsUndefinedError ∧
     assignDevelopersOpenedHandler noFileEnv basePayload =
       (getComponentList noFileEnv "WT-4821").1 ++
         reportWebhookError noFileEnv smeGroupsUndefinedError basePayload
           "assignDevelopers pull_request.opened" ∧
     (∀ a ∈ assignDevelopersOpenedHandler noFileEnv basePayload,
       isAssignmentMutation a = false) ∧
     (noFileEnv.dryRun = false →
       ∃ b, Action.slackPost SlackChannel.debug b ∈
         assignDevelopersOpenedHandler noFileEnv basePayload)) :=
  ⟨rfl, rfl, rfl,
   c10_missing_sme_file noFileEnv basePayload "WT-4821" rfl rfl rfl⟩

end WtBot
